import Mathlib

/-!
A shallow embedding of the `shapeit` library core (spatial-reference-aware
geometry wrappers over a planar geometry engine) together with proofs about
its specified behaviour.

Python floating-point numbers are modelled as exact rationals (`ℚ`).  The
single transcendental operation the code uses, `math.pow(n, 1/dimension)`
(a real `dimension`-th root), is modelled as an explicit function parameter
`rt : ℚ → Int → Int`-style argument so that theorems quantify over every
possible root implementation.  External engines (shapely, pyproj) are
modelled only through the interface the core consumes, as the spec directs.
-/

namespace Shapeit

/-! ## Unit converter (`shapeit/measure.py`) -/

/-- `Units` enumeration from `measure.py` (members `METERS`, `KILOMETERS`). -/
inductive Units where
  | METERS
  | KILOMETERS
deriving DecidableEq

/-- `_meter_conversions`: conversion factors from meters to other linear
distance units. -/
def meterConversions : Units → ℚ
  | Units.METERS => 1
  | Units.KILOMETERS => 1000

/-- The exact `ValueError` message raised by `meters` and `convert`. -/
def dimensionErrMsg : String := "'dimension' must be between 1 and 3."

/-- `meters(n, units, dimension)`: convert a linear distance to meters.
Raises `ValueError` when `dimension` is outside `[1, 3]`; otherwise returns
`n * math.pow(_meter_conversions[units], dimension)` (an exact integer
power). -/
def meters (n : ℚ) (units : Units) (dimension : Int := 1) : Except String ℚ :=
  if dimension < 1 ∨ dimension > 3 then Except.error dimensionErrMsg
  else Except.ok (n * (meterConversions units) ^ dimension.toNat)

/-- `convert(n, units, to, dimension)` from `measure.py`.  The parameter
`rt` models the floating-point root `math.pow(n, 1.0/float(dimension))`
used to reduce a 2- or 3-dimensional quantity to a one-dimensional length;
the final `math.pow(to1d, dimension)` has an integer exponent and is
modelled as an exact power. -/
def convert (rt : ℚ → Int → ℚ) (n : ℚ) (units : Units) (toUnits : Units)
    (dimension : Int := 1) : Except String ℚ :=
  -- Sanity Check: if the original units and the target units are the same,
  -- just return the original quantity.
  if units = toUnits then Except.ok n
  else if dimension < 1 ∨ dimension > 3 then Except.error dimensionErrMsg
  else
    match meters (if dimension = 1 then n else rt n dimension) units 1 with
    | Except.error e => Except.error e
    | Except.ok m1d =>
      let to1d := m1d / meterConversions toUnits
      Except.ok (if dimension = 1 then to1d else to1d ^ dimension.toNat)

/-- A concrete root implementation used by witnesses (any function of the
right type is admissible; theorems quantify over `rt`). -/
def rt0 : ℚ → Int → ℚ := fun n _ => n

/-! ## Spatial references (`shapeit/sr.py`) -/

/-- `Authorities` enumeration: member `EPSG` with value `'epsg'`. -/
inductive Authorities where
  | EPSG
deriving DecidableEq

/-- The Python enum member's `.value` attribute. -/
def Authorities.valueStr : Authorities → String
  | Authorities.EPSG => "epsg"

/-- The Python enum member's `.name` attribute. -/
def Authorities.nameStr : Authorities → String
  | Authorities.EPSG => "EPSG"

/-- The `Sr` named tuple: a spatial reference identifier plus authority
string.  Compared and hashed by value, exactly as a `NamedTuple`. -/
structure Sr where
  srid : Int
  authority : String := Authorities.EPSG.valueStr
deriving DecidableEq

/-- `WGS_84 = Sr(srid=4326, authority=Authorities.EPSG.value)`. -/
def WGS_84 : Sr := { srid := 4326, authority := Authorities.EPSG.valueStr }

/-- An argument that may be either an `Authorities` enum member or a plain
string (`authority: str or Authorities`). -/
inductive AuthorityArg where
  | auth (a : Authorities)
  | str (s : String)
deriving DecidableEq

/-- `sr(srid, authority=Authorities.EPSG)`: returns the interned `Sr` for
the pair.  The interning cache only affects identity, never value (the
spec's contract is value equality), so the model returns the value
directly.  An enum argument contributes its `.value`; a string argument is
used as-is. -/
def sr (srid : Int) (authority : AuthorityArg := AuthorityArg.auth Authorities.EPSG) : Sr :=
  let _authority :=
    match authority with
    | AuthorityArg.auth a => a.valueStr
    | AuthorityArg.str s => s
  { srid := srid, authority := _authority }

/-- `by_srid(srid, authority=Authorities.EPSG.name, validate=True)`.  Note
the default differs from `sr`'s: it is the *name* string `'EPSG'`, which is
not an `Authorities` instance, so `sr` keeps it verbatim.  Validation
(`_sr.proj`) can only raise for an unresolvable CRS; it never changes the
returned value, so the value-level model omits it. -/
def by_srid (srid : Int)
    (authority : AuthorityArg := AuthorityArg.str Authorities.EPSG.nameStr) : Sr :=
  sr srid authority

/-- Python's `int(...)` on a string of decimal digits: accumulate the
digit values left to right. -/
def pyInt (s : String) : Nat :=
  s.data.foldl (fun n c => n * 10 + (c.toNat - Char.toNat '0')) 0

/-- `utm(lat, lon)` from `sr.py`: build the two-digit zero-padded UTM band
from `floor((lon + 180) / 6) % 60 + 1`, prepend `'326'` (northern
hemisphere, `lat >= 0`) or `'327'` (southern), and parse the result back to
an integer SRID with `int(...)` (`pyInt`; the string is all digits, so the
parse always succeeds). -/
def utm (lat : ℚ) (lon : ℚ) : Sr :=
  let utm_band0 := toString ((Int.floor ((lon + 180) / 6)).emod 60 + 1)
  let utm_band := if utm_band0.length = 1 then "0" ++ utm_band0 else utm_band0
  let srid : Int :=
    if lat ≥ 0 then Int.ofNat (pyInt ("326" ++ utm_band))
    else Int.ofNat (pyInt ("327" ++ utm_band))
  sr srid (AuthorityArg.auth Authorities.EPSG)

/-! ## Planar geometry engine model (the shapely fragment the core consumes)

The engine is external to the repository; it is modelled through the
interface the core consumes (spec §6): concrete geometry values, a
GeoJSON-style structural mapping with `shape`/`mapping` as mutually inverse
conversions, an emptiness test (Python truthiness of a shapely geometry),
and the set-theoretic structural-equality predicate `equals`. -/

/-- A planar geometry value (the fragment of shapely used here): point,
linestring, polygon (a list of rings), multipoint. -/
inductive Geom where
  | point (c : ℚ × ℚ)
  | linestring (cs : List (ℚ × ℚ))
  | polygon (rings : List (List (ℚ × ℚ)))
  | multipoint (ps : List (ℚ × ℚ))
deriving DecidableEq

/-- The GeoJSON-style structural mapping of a geometry, as produced by
`shapely.geometry.mapping` and consumed by `shapely.geometry.shape`. -/
inductive GeoMapping where
  | gmPoint (c : ℚ × ℚ)
  | gmLinestring (cs : List (ℚ × ℚ))
  | gmPolygon (rings : List (List (ℚ × ℚ)))
  | gmMultipoint (ps : List (ℚ × ℚ))
deriving DecidableEq

/-- `shapely.geometry.mapping`: structural export of a geometry. -/
def mappingOf : Geom → GeoMapping
  | Geom.point c => GeoMapping.gmPoint c
  | Geom.linestring cs => GeoMapping.gmLinestring cs
  | Geom.polygon rs => GeoMapping.gmPolygon rs
  | Geom.multipoint ps => GeoMapping.gmMultipoint ps

/-- `shapely.geometry.shape`: reconstruct a geometry from its structural
mapping. -/
def shapeOf : GeoMapping → Geom
  | GeoMapping.gmPoint c => Geom.point c
  | GeoMapping.gmLinestring cs => Geom.linestring cs
  | GeoMapping.gmPolygon rs => Geom.polygon rs
  | GeoMapping.gmMultipoint ps => Geom.multipoint ps

/-- Python truthiness of a shapely geometry: `bool(g)` is `not g.is_empty`. -/
def isNonEmpty : Geom → Bool
  | Geom.point _ => true
  | Geom.linestring cs => !cs.isEmpty
  | Geom.polygon rs => !rs.isEmpty
  | Geom.multipoint ps => !ps.isEmpty

/-- `b` lies on the segment from `a` to `c` (collinear and within the
bounding box). -/
def collinearBetween (a b c : ℚ × ℚ) : Bool :=
  decide ((b.1 - a.1) * (c.2 - a.2) = (b.2 - a.2) * (c.1 - a.1)) &&
  decide (min a.1 c.1 ≤ b.1) && decide (b.1 ≤ max a.1 c.1) &&
  decide (min a.2 c.2 ≤ b.2) && decide (b.2 ≤ max a.2 c.2)

/-- Helper for `simplifyChain`: `prev` is the last vertex kept; a vertex
lying on the segment from `prev` to its successor is dropped. -/
def simplifyAux (prev : ℚ × ℚ) : List (ℚ × ℚ) → List (ℚ × ℚ)
  | b :: c :: rest =>
    if collinearBetween prev b c then simplifyAux prev (c :: rest)
    else b :: simplifyAux b (c :: rest)
  | xs => xs

/-- Drop interior vertices of a vertex chain that lie on the segment
joining their kept neighbours (they do not change the traced point set). -/
def simplifyChain : List (ℚ × ℚ) → List (ℚ × ℚ)
  | [] => []
  | a :: rest => a :: simplifyAux a rest

/-- The engine's `equals` predicate (set-theoretic equality of the
underlying point sets, spec §3/§6) on the embedded fragment: points and
polygon/multipoint forms compare structurally; linestrings compare after
removing redundant collinear interior vertices, so two different vertex
lists tracing the same chain are `equals`-equal. -/
def geomEquals (g₁ g₂ : Geom) : Bool :=
  match g₁, g₂ with
  | Geom.point p, Geom.point q => decide (p = q)
  | Geom.linestring cs, Geom.linestring ds =>
    decide (simplifyChain cs = simplifyChain ds)
  | Geom.polygon rs, Geom.polygon ss => decide (rs = ss)
  | Geom.multipoint ps, Geom.multipoint qs => decide (ps = qs)
  | _, _ => false

/-- Apply a coordinate transformation to every coordinate of a geometry
(`shapely.ops.transform` with a coordinate-pair function). -/
def mapCoords (f : ℚ × ℚ → ℚ × ℚ) : Geom → Geom
  | Geom.point c => Geom.point (f c)
  | Geom.linestring cs => Geom.linestring (cs.map f)
  | Geom.polygon rs => Geom.polygon (rs.map (List.map f))
  | Geom.multipoint ps => Geom.multipoint (ps.map f)

/-! ## The `SrGeometry` hierarchy (`shapeit/geometry/base.py`, `multi.py`) -/

/-- The concrete Python class of an `SrGeometry` instance (the fragment of
the hierarchy embedded here).  `SrLinestring` is an alias of `SrPolyline`
and `SrMultiPoint` lives in `shapeit.geometry.multi`. -/
inductive SrClass where
  | srGeometry
  | srPoint
  | srPolyline
  | srPolygon
  | srMultiPoint
deriving DecidableEq

/-- A spatially referenced geometry value: the stored base geometry, the
spatial reference and the concrete class of the instance.  The lazily
memoized `hash_` field is a derived cache, not part of the value. -/
structure SrGeometryV where
  cls : SrClass
  geom : Geom
  sr : Sr := WGS_84
deriving DecidableEq

/-- The `base_geometry` argument accepted by `SrGeometry.__init__`: a
concrete geometry, a structural mapping, or (through the bug in
`SrGeometry.location`) an uncalled bound method object. -/
inductive CtorInput where
  | geom (g : Geom)
  | mapping (m : GeoMapping)
  | methodRef
deriving DecidableEq

/-- Python error conditions surfaced by the modelled code paths. -/
inductive PyErr where
  | keyError (k : String)
  | moduleNotFoundError (m : String)
  | attributeError (a : String)
  | typeError (t : String)
  | valueError (v : String)
deriving DecidableEq

deriving instance DecidableEq for Except

/-- `SrGeometry.__init__`'s normalization of the `base_geometry` argument:
a geometry is stored as-is; a mapping goes through `shape`; anything else
(such as the uncalled bound method passed by `location`) makes `shape`
raise `AttributeError` because it has no mapping interface. -/
def normalizeCtorInput : CtorInput → Except PyErr Geom
  | CtorInput.geom g => Except.ok g
  | CtorInput.mapping m => Except.ok (shapeOf m)
  | CtorInput.methodRef => Except.error (PyErr.attributeError "shape")

/-- Construct an instance of class `c` (`__init__` shared by every class
in the hierarchy: normalize the base geometry and store it with the
spatial reference). -/
def mkSrGeometry (c : SrClass) (input : CtorInput) (srArg : Sr := WGS_84) :
    Except PyErr SrGeometryV :=
  (normalizeCtorInput input).map fun g => { cls := c, geom := g, sr := srArg }

/-- The structural kind of a geometry (its Python type, the key of the
geometry type map). -/
inductive GeomKind where
  | point
  | linestring
  | polygon
  | multipoint
deriving DecidableEq

/-- `type(geometry)` as a registry key. -/
def kindOf : Geom → GeomKind
  | Geom.point _ => GeomKind.point
  | Geom.linestring _ => GeomKind.linestring
  | Geom.polygon _ => GeomKind.polygon
  | Geom.multipoint _ => GeomKind.multipoint

/-- `_geometry_type_map` after module import: the base entries from
`base.py` plus the `update_geometry_type_map` registrations performed by
`multi.py` (restricted to the kinds embedded here). -/
def geometryTypeMap : List (GeomKind × SrClass) :=
  [(GeomKind.point, SrClass.srPoint),
   (GeomKind.linestring, SrClass.srPolyline),
   (GeomKind.polygon, SrClass.srPolygon),
   (GeomKind.multipoint, SrClass.srMultiPoint)]

/-- `_geometry_type_map.get(type(g), SrGeometry)`: resolve a structural
kind to the registered wrapper class, defaulting to the base class. -/
def resolveGeomClass (k : GeomKind) : SrClass :=
  ((geometryTypeMap.find? fun p => p.1 = k).map Prod.snd).getD SrClass.srGeometry

/-- The spatial-reference argument of `sr_shape`/`transform`: either an
`Sr` or a raw SRID integer. -/
inductive SrArg where
  | srv (s : Sr)
  | srid (i : Int)
deriving DecidableEq

/-- `transform`'s resolution of its `sr` argument: a ready-made `Sr` is
used as-is, a raw SRID goes through `by_srid` (with `by_srid`'s default
authority). -/
def resolveSrArg : SrArg → Sr
  | SrArg.srv s => s
  | SrArg.srid i => by_srid i

/-- `sr_shape(base_geometry, sr)`: normalize the base geometry (a mapping
input goes through `shape`), pick the wrapper class from the geometry type
map by the geometry's type, and instantiate it.  The `sr` argument is
used as-is when it is an `Sr` and resolved through `by_srid` otherwise. -/
def sr_shape (base_geometry : Geom ⊕ GeoMapping) (srArg : SrArg := SrArg.srv WGS_84) :
    SrGeometryV :=
  let _base_geometry :=
    match base_geometry with
    | Sum.inl g => g
    | Sum.inr m => shapeOf m
  { cls := resolveGeomClass (kindOf _base_geometry),
    geom := _base_geometry,
    sr := resolveSrArg srArg }

/-- `SrGeometry.transform(sr)`: resolve the target (`by_srid` for a raw
SRID), return `self` when the resolved target equals the instance's
spatial reference, and otherwise apply the cached transform function for
`(self.sr, target)` to every coordinate and rewrap through `sr_shape`.
The parameter `tf` models the projection engine's cached coordinate
transform `transform_fn(from_, to)`. -/
def transform (tf : Sr → Sr → (ℚ × ℚ → ℚ × ℚ)) (g : SrGeometryV) (tgt : SrArg) :
    SrGeometryV :=
  let _sr := resolveSrArg tgt
  if _sr = g.sr then g
  else
    let transformed_geometry := mapCoords (tf g.sr _sr) g.geom
    sr_shape (Sum.inl transformed_geometry) (SrArg.srv _sr)

/-- `location()` across the hierarchy.  `SrPoint.location` returns the
instance itself; `SrPolyline.location` wraps
`base_geometry.interpolate(0.5, normalized=True)` (the engine's arc-length
interpolation, modelled by the parameter `interp`) in an `SrPoint` with
the same spatial reference; every other class inherits
`SrGeometry.location`, which passes the *uncalled* bound method
`self.base_geometry.representative_point` as the new point's base
geometry. -/
def location (interp : Geom → ℚ → Bool → ℚ × ℚ) (g : SrGeometryV) :
    Except PyErr SrGeometryV :=
  match g.cls with
  | SrClass.srPoint => Except.ok g
  | SrClass.srPolyline =>
    mkSrGeometry SrClass.srPoint
      (CtorInput.geom (Geom.point (interp g.geom (1/2) true))) g.sr
  | _ => mkSrGeometry SrClass.srPoint CtorInput.methodRef g.sr

/-! ## Type-name resolution (`shapeit/types.py`) and export/import
(`shapeit/xchg.py`, `SrGeometry.export`/`load`) -/

/-- `pyfqn(obj)`: the fully-qualified name of an object's class. -/
def pyfqn : SrClass → String
  | SrClass.srGeometry => "shapeit.geometry.base.SrGeometry"
  | SrClass.srPoint => "shapeit.geometry.base.SrPoint"
  | SrClass.srPolyline => "shapeit.geometry.base.SrPolyline"
  | SrClass.srPolygon => "shapeit.geometry.base.SrPolygon"
  | SrClass.srMultiPoint => "shapeit.geometry.multi.SrMultiPoint"

/-- The importable modules and the classes they contain, as visible to
`pycls` (the fragment of the package embedded here; `SrLinestring` is the
module-level alias of `SrPolyline`). -/
def moduleEnv : List (String × List (String × SrClass)) :=
  [("shapeit.geometry.base",
    [("SrGeometry", SrClass.srGeometry),
     ("SrPoint", SrClass.srPoint),
     ("SrPolyline", SrClass.srPolyline),
     ("SrLinestring", SrClass.srPolyline),
     ("SrPolygon", SrClass.srPolygon)]),
   ("shapeit.geometry.multi",
    [("SrMultiPoint", SrClass.srMultiPoint)])]

/-- Character-level split at `'.'` (every dot separates, empty pieces
kept), the semantics of Python's `str.split('.')`. -/
def splitDots : List Char → List (List Char)
  | [] => [[]]
  | c :: rest =>
    match splitDots rest with
    | [] => [[]]
    | g :: gs => if c = '.' then [] :: g :: gs else (c :: g) :: gs

/-- Python's `fqn_.split('.')`. -/
def pySplitDots (s : String) : List String :=
  (splitDots s.data).map String.mk

/-- `pycls(fqn_)`: split the fully-qualified name at the dots, find the
module (the `KeyError` from the `sys.modules` lookup is caught *inside*
`pycls`, which then attempts `importlib.import_module`; a module that
cannot be imported raises `ModuleNotFoundError`, and an empty module name
raises `ValueError`), then fetch the class from the module (`getattr`
raises `AttributeError` when absent).  `pycls` itself never raises
`KeyError`. -/
def pycls (fqn_ : String) : Except PyErr SrClass :=
  let tokens := pySplitDots fqn_
  let modname := String.mk (List.intercalate ['.'] ((tokens.dropLast).map String.data))
  let clsname := tokens.getLastD ""
  if modname = "" then Except.error (PyErr.valueError "Empty module name")
  else
    match moduleEnv.find? (fun p => p.1 = modname) with
    | none => Except.error (PyErr.moduleNotFoundError modname)
    | some (_, classes) =>
      match classes.find? (fun p => p.1 = clsname) with
      | none => Except.error (PyErr.attributeError clsname)
      | some (_, c) => Except.ok c

/-- A value stored in an export mapping: a string (the type tag), a
geometry mapping, or the `Sr._asdict()` field mapping. -/
inductive XVal where
  | s (v : String)
  | geo (m : GeoMapping)
  | srd (srid : Int) (authority : String)
deriving DecidableEq

/-- The mapping produced by `SrGeometry.export` (and accepted by `load`):
string keys with typed values, in insertion order. -/
abbrev ExportMap := List (String × XVal)

/-- `data[k]` / `data.get(k)` on an export mapping. -/
def dictGet (k : String) (m : ExportMap) : Option XVal :=
  (m.find? fun p => p.1 = k).map Prod.snd

/-- `SrGeometry.export()`: the type tag, the structural geometry mapping
and the `Sr` fields. -/
def exportData (g : SrGeometryV) : ExportMap :=
  [("__type__", XVal.s (pyfqn g.cls)),
   ("base_geometry", XVal.geo (mappingOf g.geom)),
   ("sr", XVal.srd g.sr.srid g.sr.authority)]

/-- The tail of `SrGeometry.load`: construct class `c'` from
`shape(data.get('base_geometry'))` and `Sr(**data.get('sr'))`, either of
which raises `TypeError` when its field is missing or ill-typed. -/
def loadFields (c' : SrClass) (m : ExportMap) : Except PyErr (Option SrGeometryV) :=
  match dictGet "base_geometry" m with
  | some (XVal.geo gm) =>
    match dictGet "sr" m with
    | some (XVal.srd srid auth) =>
      Except.ok (some { cls := c', geom := shapeOf gm,
                        sr := { srid := srid, authority := auth } })
    | _ => Except.error (PyErr.typeError "Sr")
  | _ => Except.error (PyErr.typeError "shape")

/-- `SrGeometry.load(data)` as invoked on class `c`: empty or missing data
yields `None`; otherwise the `try`/`except KeyError` around
`pycls(data['__type__'])` falls back to the calling class exactly when the
`'__type__'` key is missing (the subscript's `KeyError`), while resolution
failures from `pycls` itself (`ModuleNotFoundError`, `AttributeError`,
`ValueError`) propagate; the variant is then constructed from the
geometry mapping and `Sr` fields (`loadFields`). -/
def load (c : SrClass) (data : Option ExportMap) : Except PyErr (Option SrGeometryV) :=
  match data with
  | none => Except.ok none
  | some m =>
    if m.isEmpty then Except.ok none
    else
      match
        (match dictGet "__type__" m with
         | none => Except.ok c
         | some (XVal.s tag) => pycls tag
         | some _ => Except.error (PyErr.attributeError "split"))
      with
      | Except.error e => Except.error e
      | Except.ok _cls => loadFields _cls m

/-- `SrGeometry.__eq__`: `None` compares unequal (`if not other`; an
`SrGeometry` instance itself defines neither `__bool__` nor `__len__` and
is always truthy); then the spatial references must match; an instance
with an empty base geometry equals exactly the instances whose base
geometry is also empty; otherwise the engine's `equals` predicate (the
parameter `eqFn`) decides. -/
def pyEq (eqFn : Geom → Geom → Bool) (a : SrGeometryV) (other : Option SrGeometryV) :
    Bool :=
  match other with
  | none => false
  | some o =>
    if a.sr ≠ o.sr then false
    else if !(isNonEmpty a.geom) then !(isNonEmpty o.geom)
    else eqFn a.geom o.geom

/-- `SrGeometry.__hash__`: `int(sha3_512(str(self.export())).hexdigest(), 16)`.
`str` of the export mapping is injective on export mappings (fixed key
order, structured values), so the digested string is a function of the
export mapping; the digest itself is modelled as an uninterpreted
parameter `H`.  The lazy memoization into `hash_` is identity-level
caching of this value and is elided. -/
def pyHash (H : ExportMap → ℕ) (g : SrGeometryV) : ℕ :=
  H (exportData g)

/-! ## Concrete values used by witnesses and counterexamples -/

/-- A concrete coordinate transform (any function is admissible; theorems
quantify over the transform). -/
def tf0 : Sr → Sr → (ℚ × ℚ → ℚ × ℚ) := fun _ _ p => p

/-- A concrete engine interpolation function for witnesses. -/
def interp0 : Geom → ℚ → Bool → ℚ × ℚ := fun _ _ _ => (0, 0)

/-- A concrete `SrPoint` instance. -/
def p0 : SrGeometryV :=
  { cls := SrClass.srPoint, geom := Geom.point (0, 0), sr := WGS_84 }

/-- A concrete `SrPolyline` instance over the two-vertex diagonal chain. -/
def plA : SrGeometryV :=
  { cls := SrClass.srPolyline,
    geom := Geom.linestring [(0, 0), (1, 1)], sr := WGS_84 }

/-- The same chain as `plA` with a redundant collinear midpoint vertex:
the same point set, a different coordinate list. -/
def plB : SrGeometryV :=
  { cls := SrClass.srPolyline,
    geom := Geom.linestring [(0, 0), (1/2, 1/2), (1, 1)], sr := WGS_84 }

/-- A concrete `SrPolygon` instance (inherits the base `location`). -/
def pg0 : SrGeometryV :=
  { cls := SrClass.srPolygon,
    geom := Geom.polygon [[(0, 0), (1, 0), (1, 1), (0, 0)]], sr := WGS_84 }

/-- A concrete digest distinguishing the exports of `plA` and `plB`
(instantiates the uninterpreted digest in witnesses). -/
def H0 : ExportMap → ℕ := fun m => if m = exportData plA then 0 else 1

/-- Export data whose type tag names a module that does not exist, with
well-formed geometry and `Sr` fields. -/
def badTagData : ExportMap :=
  [("__type__", XVal.s "no_such_module.Foo"),
   ("base_geometry", XVal.geo (GeoMapping.gmPoint (0, 0))),
   ("sr", XVal.srd 4326 "epsg")]

/-- Export data with well-formed geometry and `Sr` fields but no
`'__type__'` key at all. -/
def noTagData : ExportMap :=
  [("base_geometry", XVal.geo (GeoMapping.gmPoint (0, 0))),
   ("sr", XVal.srd 4326 "epsg")]

/-! ## Theorems -/

unseal Rat.add Rat.mul Rat.inv Rat.sub

/-- `shape` inverts `mapping`: the engine's structural round trip. -/
theorem shapeOf_mappingOf (g : Geom) : shapeOf (mappingOf g) = g := by
  cases g <;> rfl

/-- The engine's `equals` predicate is reflexive on the embedded
fragment. -/
theorem geomEquals_refl (g : Geom) : geomEquals g g = true := by
  cases g <;> simp [geomEquals]

/-- `pycls` inverts `pyfqn` on every class of the hierarchy. -/
theorem pycls_pyfqn (c : SrClass) : pycls (pyfqn c) = Except.ok c := by
  cases c <;> decide

/-- For a band value between 1 and 60, prefixing the two-digit zero-padded
decimal representation with `'326'` (resp. `'327'`) and parsing with
`int(...)` yields `32600 + z` (resp. `32700 + z`). -/
theorem utm_band_value (z : Int) (h1 : 1 ≤ z) (h60 : z ≤ 60) :
    (Int.ofNat (pyInt ("326" ++
        (if (toString z).length = 1 then "0" ++ toString z else toString z))) =
      32600 + z) ∧
    (Int.ofNat (pyInt ("327" ++
        (if (toString z).length = 1 then "0" ++ toString z else toString z))) =
      32700 + z) := by
  have key : ∀ k : ℕ, k < 60 →
      (Int.ofNat (pyInt ("326" ++
          (if (toString ((k : Int) + 1)).length = 1 then "0" ++ toString ((k : Int) + 1)
           else toString ((k : Int) + 1)))) = 32600 + ((k : Int) + 1)) ∧
      (Int.ofNat (pyInt ("327" ++
          (if (toString ((k : Int) + 1)).length = 1 then "0" ++ toString ((k : Int) + 1)
           else toString ((k : Int) + 1)))) = 32700 + ((k : Int) + 1)) := by decide
  have hz : z = ((z.toNat - 1 : ℕ) : Int) + 1 := by omega
  have hk : z.toNat - 1 < 60 := by omega
  rw [hz]
  exact key _ hk

/-- Claim C2: for every latitude and longitude, `utm(lat, lon)` returns the
`Sr` whose SRID is the hemisphere family prefix (326 when `lat >= 0`, 327
otherwise) concatenated with the two-digit zero-padded zone number
`floor((lon + 180) / 6) mod 60 + 1` (numerically `prefix * 100 + zone`),
with the EPSG authority; in particular `utm(45.553670, -94.142430)` has
SRID 32615. -/
theorem utm_zone_srid :
    (∀ lat lon : ℚ,
      utm lat lon =
        { srid := (if 0 ≤ lat then 326 else 327) * 100 +
            ((Int.floor ((lon + 180) / 6)).emod 60 + 1),
          authority := "epsg" }) ∧
    utm (4555367/100000) (-9414243/100000) =
      { srid := 32615, authority := "epsg" } := by
  constructor
  · intro lat lon
    have h0 : 0 ≤ (Int.floor ((lon + 180) / 6)).emod 60 :=
      Int.emod_nonneg _ (by norm_num)
    have h59 : (Int.floor ((lon + 180) / 6)).emod 60 < 60 :=
      Int.emod_lt_of_pos _ (by norm_num)
    obtain ⟨e326, e327⟩ :=
      utm_band_value ((Int.floor ((lon + 180) / 6)).emod 60 + 1)
        (by omega) (by omega)
    simp only [utm, sr]
    by_cases hl : lat ≥ 0
    · rw [if_pos hl, if_pos (ge_iff_le.mp hl), e326, Sr.mk.injEq]
      exact ⟨by omega, rfl⟩
    · rw [if_neg hl, if_neg (fun h => hl (ge_iff_le.mpr h)), e327, Sr.mk.injEq]
      exact ⟨by omega, rfl⟩
  · decide

/-- Claim C4 counterexample: with equal source and target units,
`convert(5, METERS, METERS, 4)` returns the quantity unchanged instead of
raising the invalid-dimension error, because the equal-units short-circuit
precedes the dimension check; the claim's "including equal units ... the
call never returns normally" is therefore false. -/
theorem convert_equal_units_skips_dimension_check :
    convert rt0 5 Units.METERS Units.METERS 4 = Except.ok 5 := by decide

/-- Claim C4 (amended): for every quantity, every pair of *distinct*
units, and every root function, `convert` raises the invalid-dimension
`ValueError` whenever `dimension` is outside `[1, 3]`; the value is never
clamped.  (With equal units the short-circuit returns the quantity before
the dimension check runs.) -/
theorem convert_invalid_dimension (rt : ℚ → Int → ℚ) (n : ℚ) (u v : Units)
    (d : Int) (huv : u ≠ v) (hd : d < 1 ∨ 3 < d) :
    convert rt n u v d = Except.error dimensionErrMsg := by
  unfold convert
  rw [if_neg huv, if_pos hd]

/-- Witness for `convert_invalid_dimension` at `n = 1`, `METERS` to
`KILOMETERS`, `dimension = 4`. -/
theorem convert_invalid_dimension_witness :
    convert rt0 1 Units.METERS Units.KILOMETERS 4 = Except.error dimensionErrMsg :=
  convert_invalid_dimension rt0 1 Units.METERS Units.KILOMETERS 4
    (by decide) (Or.inr (by decide))

/-- Claim C5: `convert(n, u, u, d) = n` for every quantity, unit and
dimension (and every root function): the equal-units short-circuit returns
the input unchanged regardless of dimension. -/
theorem convert_identity (rt : ℚ → Int → ℚ) (n : ℚ) (u : Units) (d : Int) :
    convert rt n u u d = Except.ok n := by
  unfold convert
  rw [if_pos rfl]

/-- Claim C6: for distinct units and a dimension in `[1, 3]`, `convert`
reduces a non-negative quantity to one dimension (the `d`-th root `rt n d`
when `d ≠ 1`), converts that length linearly between the unit factors, and
raises the result back to the `d`-th power; consequently
`convert(1, METERS, KILOMETERS, 1) = 0.001` and
`convert(1, METERS, KILOMETERS, 2) = 1e-6` (for any root function with
`rt 1 2 = 1`, as every real root function satisfies). -/
theorem convert_dimension_semantics :
    (∀ (rt : ℚ → Int → ℚ) (n : ℚ) (u v : Units) (d : Int), u ≠ v →
      1 ≤ d → d ≤ 3 → 0 ≤ n →
      convert rt n u v d =
        Except.ok ((((if d = 1 then n else rt n d) * meterConversions u) /
          meterConversions v) ^ d.toNat)) ∧
    (∀ rt : ℚ → Int → ℚ,
      convert rt 1 Units.METERS Units.KILOMETERS 1 = Except.ok (1/1000)) ∧
    (∀ rt : ℚ → Int → ℚ, rt 1 2 = 1 →
      convert rt 1 Units.METERS Units.KILOMETERS 2 = Except.ok (1/1000000)) := by
  refine ⟨?_, ?_, ?_⟩
  · intro rt n u v d huv h1 h3 _
    unfold convert meters
    rw [if_neg huv, if_neg (by omega : ¬(d < 1 ∨ d > 3)),
      if_neg (by omega : ¬((1 : Int) < 1 ∨ (1 : Int) > 3))]
    by_cases hd : d = 1
    · subst hd
      simp
    · rw [if_neg hd]
      simp [hd]
  · intro rt
    simp [convert, meters, meterConversions]
  · intro rt h
    have hroot : (if (2 : Int) = 1 then (1 : ℚ) else rt 1 2) = 1 := by
      rw [if_neg (by decide)]
      exact h
    unfold convert
    rw [hroot]
    decide

/-- Witness for `convert_dimension_semantics`: the general clause applied
at `n = 3/2` from `KILOMETERS` to `METERS` with `dimension = 2`, and the
concrete square clause at the identity-satisfying root `rt0`. -/
theorem convert_dimension_semantics_witness :
    convert rt0 (3/2) Units.KILOMETERS Units.METERS 2 = Except.ok 2250000 ∧
    convert rt0 1 Units.METERS Units.KILOMETERS 2 = Except.ok (1/1000000) := by
  constructor
  · have h := convert_dimension_semantics.1 rt0 (3/2) Units.KILOMETERS Units.METERS 2
      (by decide) (by decide) (by decide) (by decide)
    rw [h]
    decide
  · exact convert_dimension_semantics.2.2 rt0 rfl

/-- Claim C1: exporting any `SrGeometry` value and loading the export (on
any calling class) reconstructs the very same value, which is equal under
the Python `==` of the hierarchy and has the same hash for every digest
function. -/
theorem load_exportData_roundtrip (c : SrClass) (x : SrGeometryV) :
    ∃ y, load c (some (exportData x)) = Except.ok (some y) ∧
      pyEq geomEquals y (some x) = true ∧
      ∀ H : ExportMap → ℕ, pyHash H y = pyHash H x := by
  refine ⟨x, ?_, ?_, fun H => rfl⟩
  · show load c (some (exportData x)) = Except.ok (some x)
    unfold load exportData loadFields
    simp [dictGet, List.find?, pycls_pyfqn, shapeOf_mappingOf]
  · show pyEq geomEquals x (some x) = true
    cases hne : isNonEmpty x.geom <;> simp [pyEq, hne, geomEquals_refl]

/-- Helper: the no-op branch of `transform`. -/
theorem transform_noop (tf : Sr → Sr → (ℚ × ℚ → ℚ × ℚ))
    (g : SrGeometryV) (tgt : SrArg) (h : resolveSrArg tgt = g.sr) :
    transform tf g tgt = g := by
  simp [transform, h]

/-- Helper: the rewrapping branch of `transform`. -/
theorem transform_rewrap (tf : Sr → Sr → (ℚ × ℚ → ℚ × ℚ))
    (g : SrGeometryV) (tgt : SrArg) (h : resolveSrArg tgt ≠ g.sr) :
    transform tf g tgt =
      { cls := resolveGeomClass (kindOf (mapCoords (tf g.sr (resolveSrArg tgt)) g.geom)),
        geom := mapCoords (tf g.sr (resolveSrArg tgt)) g.geom,
        sr := resolveSrArg tgt } := by
  simp [transform, sr_shape, h]
  rfl

/-- Claim C3: `transform` first resolves the target (through `by_srid`
when given as a raw SRID); when the resolved target equals the instance's
spatial reference it returns the instance unchanged, and otherwise it
returns the value whose spatial reference is the resolved target, whose
base geometry is the original with the cached `(self.sr, target)`
transform function applied to every coordinate, and whose concrete class
is chosen by the geometry variant registry. -/
theorem transform_semantics (tf : Sr → Sr → (ℚ × ℚ → ℚ × ℚ))
    (g : SrGeometryV) (tgt : SrArg) :
    (resolveSrArg tgt = g.sr → transform tf g tgt = g) ∧
    (resolveSrArg tgt ≠ g.sr →
      transform tf g tgt =
        { cls := resolveGeomClass (kindOf (mapCoords (tf g.sr (resolveSrArg tgt)) g.geom)),
          geom := mapCoords (tf g.sr (resolveSrArg tgt)) g.geom,
          sr := resolveSrArg tgt }) :=
  ⟨transform_noop tf g tgt, transform_rewrap tf g tgt⟩

/-- Witness for `transform_semantics`: the no-op branch at an already
matching target, and the rewrapping branch at a raw SRID target. -/
theorem transform_semantics_witness :
    transform tf0 p0 (SrArg.srv WGS_84) = p0 ∧
    transform tf0 p0 (SrArg.srid 3857) =
      { cls := SrClass.srPoint, geom := Geom.point (0, 0),
        sr := { srid := 3857, authority := "EPSG" } } := by
  constructor
  · exact (transform_semantics tf0 p0 (SrArg.srv WGS_84)).1 (by decide)
  · have h := (transform_semantics tf0 p0 (SrArg.srid 3857)).2 (by decide)
    rw [h]
    decide

/-- Claim C7 (failing evaluation): `location()` returns the instance for a
point and wraps the engine's normalized-0.5 arc-length interpolation for a
polyline, but the base implementation inherited by every other variant
(here `SrPolygon`) raises `AttributeError` because the uncalled bound
method `representative_point` is handed to `shape` instead of the
representative point itself. -/
theorem location_behaviour :
    location interp0 p0 = Except.ok p0 ∧
    location interp0 plA =
      Except.ok { cls := SrClass.srPoint,
                  geom := Geom.point (interp0 plA.geom (1/2) true),
                  sr := plA.sr } ∧
    location interp0 pg0 = Except.error (PyErr.attributeError "shape") := by
  refine ⟨rfl, rfl, rfl⟩

/-- Claim C8 counterexample: a present but unresolvable type tag (naming a
module that does not exist) makes `load` surface the resolution error
instead of falling back to the calling type, refuting "falling back to the
calling type whenever the tag cannot be resolved to a class". -/
theorem load_unresolvable_tag_raises :
    load SrClass.srPoint (some badTagData) =
      Except.error (PyErr.moduleNotFoundError "no_such_module") := by decide

/-- Claim C8 (amended): `load(data)` returns an absent result (no value,
not an error) whenever `data` is empty or missing; otherwise it resolves
the mapping's type tag to a concrete constructor and constructs that
variant from the geometry mapping and the `Sr` fields, falling back to the
calling type only when the tag key is missing from the mapping, while a
present tag that cannot be resolved surfaces the resolution error. -/
theorem load_semantics (c : SrClass) :
    (load c none = Except.ok none) ∧
    (load c (some []) = Except.ok none) ∧
    (∀ m : ExportMap, m.isEmpty = false → dictGet "__type__" m = none →
      load c (some m) = loadFields c m) ∧
    (∀ (m : ExportMap) (tag : String) (c' : SrClass), m.isEmpty = false →
      dictGet "__type__" m = some (XVal.s tag) → pycls tag = Except.ok c' →
      load c (some m) = loadFields c' m) ∧
    (∀ (m : ExportMap) (tag : String) (e : PyErr), m.isEmpty = false →
      dictGet "__type__" m = some (XVal.s tag) → pycls tag = Except.error e →
      load c (some m) = Except.error e) := by
  refine ⟨rfl, rfl, ?_, ?_, ?_⟩
  · intro m hm htag
    simp [load, hm, htag]
  · intro m tag c' hm htag hres
    simp [load, hm, htag, hres]
  · intro m tag e hm htag hres
    simp [load, hm, htag, hres]

/-- Witness for `load_semantics`: the absent result on missing data, and
the fallback to the calling class when the tag key is missing. -/
theorem load_semantics_witness :
    load SrClass.srPolygon none = Except.ok none ∧
    load SrClass.srPolygon (some noTagData) =
      Except.ok (some { cls := SrClass.srPolygon, geom := Geom.point (0, 0),
                        sr := { srid := 4326, authority := "epsg" } }) := by
  constructor
  · exact (load_semantics SrClass.srPolygon).1
  · have h := (load_semantics SrClass.srPolygon).2.2.1 noTagData (by decide) (by decide)
    rw [h]
    decide

/-- Claim C9: `by_srid` with its default authority produces `Sr` values
whose authority is the enum member *name* `'EPSG'`, while `sr` with its
default produces the enum member *value* `'epsg'`; the two are never
value-equal, `by_srid(4326)` differs from the `WGS_84` constant, and
therefore `transform(4326)` on a geometry already in `WGS_84` does not
take the no-op branch: it produces a value in the `'EPSG'`-authority
reference rather than returning the instance. -/
theorem by_srid_sr_authority_mismatch :
    (∀ i : Int, (by_srid i).authority = "EPSG") ∧
    (∀ i : Int, (sr i).authority = "epsg") ∧
    (∀ i : Int, by_srid i ≠ sr i) ∧
    by_srid 4326 ≠ WGS_84 ∧
    (∀ (tf : Sr → Sr → (ℚ × ℚ → ℚ × ℚ)) (g : SrGeometryV), g.sr = WGS_84 →
      transform tf g (SrArg.srid 4326) =
        { cls := resolveGeomClass (kindOf (mapCoords (tf g.sr (by_srid 4326)) g.geom)),
          geom := mapCoords (tf g.sr (by_srid 4326)) g.geom,
          sr := by_srid 4326 } ∧
      (transform tf g (SrArg.srid 4326)).sr ≠ g.sr) := by
  refine ⟨fun i => rfl, fun i => rfl, ?_, by decide, ?_⟩
  · intro i
    intro h
    have : (by_srid i).authority = (sr i).authority := by rw [h]
    simp [by_srid, sr, Authorities.nameStr, Authorities.valueStr] at this
  · intro tf g hg
    have hne : resolveSrArg (SrArg.srid 4326) ≠ g.sr := by
      rw [hg]
      decide
    have h := transform_rewrap tf g (SrArg.srid 4326) hne
    refine ⟨h, ?_⟩
    rw [h, hg]
    show resolveSrArg (SrArg.srid 4326) ≠ WGS_84
    decide

/-- Witness for `by_srid_sr_authority_mismatch` at a concrete point in
`WGS_84`. -/
theorem by_srid_sr_authority_mismatch_witness :
    (transform tf0 p0 (SrArg.srid 4326)).sr ≠ p0.sr ∧ by_srid 4326 ≠ sr 4326 :=
  ⟨(by_srid_sr_authority_mismatch.2.2.2.2 tf0 p0 rfl).2,
   by_srid_sr_authority_mismatch.2.2.1 4326⟩

/-- Claim C10: `SrGeometry` equality does not imply hash equality: the
polylines `plA` and `plB` trace the same point set with different
coordinate lists, so Python `==` holds (CRS equality plus the engine's
set-theoretic `equals`), yet their exports differ, and hence any digest
that separates the two export mappings (as the SHA3-512 of their distinct
export strings does) yields different hashes. -/
theorem eq_without_hash_eq :
    pyEq geomEquals plA (some plB) = true ∧
    plA.geom ≠ plB.geom ∧
    exportData plA ≠ exportData plB ∧
    ∀ H : ExportMap → ℕ, H (exportData plA) ≠ H (exportData plB) →
      pyHash H plA ≠ pyHash H plB := by
  refine ⟨by decide, by decide, by decide, fun H h => h⟩

/-- Witness for `eq_without_hash_eq`: the concrete digest `H0` separates
the two exports, so the two equal-by-`==` polylines hash differently. -/
theorem eq_without_hash_eq_witness :
    pyEq geomEquals plA (some plB) = true ∧ pyHash H0 plA ≠ pyHash H0 plB :=
  ⟨eq_without_hash_eq.1, eq_without_hash_eq.2.2.2 H0 (by decide)⟩

end Shapeit
